import Mathlib

/-!
Verification of the uploadTool job-processing pipeline.

The definitions below are a shallow embedding of the Python sources:
  * `trackandtrace/queue_processor.py` (job state machine, job processor,
    retry controller, queue/cancellation),
  * `trackandtrace/file_processor.py`  (validation, duplicate detection,
    dataframe cleaning, processed-file index),
  * `trackandtrace/database_handler.py` (dataframe cleaning for the staged
    load, upsert statement construction).

Wall-clock timestamps are modelled as natural numbers supplied by the
caller (`now`); the MD5 digests used for duplicate detection are modelled
as perfect (injective) fingerprints, i.e. the digest of a value is the
value itself.  External effects (database, filesystem, e-mail) are
modelled by explicit outcome environments passed to each function.
-/

namespace UploadTool

/-! ## Job state machine (`queue_processor.py`, class `JobStatus`) -/

/-- `JobStatus` enumeration from `queue_processor.py`. -/
inductive JobStatus
  | pending
  | inProgress
  | completed
  | failed
  | cancelled
deriving DecidableEq, Repr

/-- Terminal states per the state machine: COMPLETED, FAILED, CANCELLED. -/
def JobStatus.isTerminal : JobStatus → Bool
  | .completed => true
  | .failed => true
  | .cancelled => true
  | _ => false

/-- Outcome statistics written by `JobProcessor.process_job` on completion
(`processing_stats` dict). -/
structure ProcessingStats where
  totalRecords : Nat
  processedFiles : Nat
  failedFiles : Nat
  processingTime : Nat
deriving DecidableEq, Repr

/-- The `ProcessingJob` dataclass from `queue_processor.py`. -/
structure ProcessingJob where
  id : String
  emailUid : Nat
  subject : String
  sender : String
  date : Nat
  files : List String
  status : JobStatus
  createdAt : Nat
  startedAt : Option Nat := none
  completedAt : Option Nat := none
  errorMessage : Option String := none
  processingStats : Option ProcessingStats := none
  retryCount : Nat := 0
  maxRetries : Nat := 3
deriving DecidableEq, Repr

/-! ## Outcome environments

`JobProcessor.process_job` calls out to the database handler, the file
processor and the e-mail monitor.  Per file, the calls that decide the
control flow are `process_excel_file`, `load_excel_to_temp_table`,
`upsert_data_to_target_table` and `move_to_processed`; per attempt,
`create_temp_schema`.  Their outcomes are modelled as booleans. -/

/-- Outcomes of the external calls made for one file inside
`process_job`'s file loop. -/
structure FileEnv where
  processOk : Bool
  loadOk : Bool
  upsertOk : Bool
  moveOk : Bool
  records : Nat
deriving DecidableEq, Repr

/-- Outcomes of the external calls made during one `process_job` attempt. -/
structure JobEnv where
  schemaOk : Bool
  fileEnv : String → FileEnv

/-- Instrumentation of one pipeline run: every assignment to
`job.status`, `job.started_at` and `job.completed_at`, the backoff
sleeps issued by the retry controller, and the number of
`process_job` invocations.  The log is observational only; it changes
no behaviour. -/
structure RunLog where
  statusWrites : List JobStatus
  startedAtWrites : Nat
  completedAtWrites : Nat
  sleeps : List Nat
  attempts : Nat
deriving DecidableEq, Repr

def RunLog.empty : RunLog := ⟨[], 0, 0, [], 0⟩

/-- Sequential composition of two run logs. -/
def RunLog.append (a b : RunLog) : RunLog :=
  ⟨a.statusWrites ++ b.statusWrites, a.startedAtWrites + b.startedAtWrites,
   a.completedAtWrites + b.completedAtWrites, a.sleeps ++ b.sleeps,
   a.attempts + b.attempts⟩

/-- The per-file accumulation of `process_job`'s loop (lines 80-131):
`total_records` grows by `len(loaded_df)` once the upsert succeeded, and
a file joins `processed_files` only if `move_to_processed` also returned
True.  Files failing any earlier step are skipped with `continue`. -/
def fileLoopStats (env : JobEnv) (files : List String) : Nat × Nat :=
  files.foldl
    (fun acc f =>
      let e := env.fileEnv f
      if e.processOk && e.loadOk && e.upsertOk then
        (acc.1 + e.records, if e.moveOk then acc.2 + 1 else acc.2)
      else acc)
    (0, 0)

/-- The job as `process_job` leaves it when every step ran: COMPLETED,
with `started_at`/`completed_at` assigned and the statistics recorded. -/
def jobCompletedAt (env : JobEnv) (job : ProcessingJob) (now : Nat) : ProcessingJob :=
  { job with
      status := .completed
      startedAt := some now
      completedAt := some now
      processingStats := some ⟨(fileLoopStats env job.files).1,
        (fileLoopStats env job.files).2,
        job.files.length - (fileLoopStats env job.files).2, now - now⟩ }

/-- The job as `process_job`'s exception handler leaves it when
`create_temp_schema` failed: FAILED, with the error message and
`started_at`/`completed_at` assigned. -/
def jobFailedAt (job : ProcessingJob) (now : Nat) : ProcessingJob :=
  { job with
      status := .failed
      startedAt := some now
      errorMessage := some "Failed to create temporary schema"
      completedAt := some now }

/-- Log of a successful attempt. -/
def attemptLogOk : RunLog := ⟨[.inProgress, .completed], 1, 1, [], 1⟩

/-- Log of a failed attempt. -/
def attemptLogFail : RunLog := ⟨[.inProgress, .failed], 1, 1, [], 1⟩

/-- `JobProcessor.process_job`.  The job is moved to IN_PROGRESS and
`started_at` is (re)assigned at the start of the call; if
`create_temp_schema` fails an exception is raised and the handler sets
FAILED with an error message and `completed_at`; otherwise the file loop
runs (individual file failures only `continue`) and the job is set to
COMPLETED with its statistics and `completed_at`.  Returns the updated
job, the run log of this attempt, and the boolean result. -/
def processJob (env : JobEnv) (job : ProcessingJob) (now : Nat) :
    ProcessingJob × RunLog × Bool :=
  if env.schemaOk then (jobCompletedAt env job now, attemptLogOk, true)
  else (jobFailedAt job now, attemptLogFail, false)

/-- `job.retry_count = attempt`, executed at the start of every attempt
after the first. -/
def preAttempt (job : ProcessingJob) (attempt : Nat) : ProcessingJob :=
  if 0 < attempt then { job with retryCount := attempt } else job

/-- Loop body of `QueueProcessor._process_job_with_retry`: attempts are
numbered `attempt, attempt+1, ...`; `retry_count` is assigned at the
start of every attempt after the first; a failed attempt that is not the
last sleeps `2 ** attempt` and retries.  `rem` is fuel equal to the
number of loop iterations left (`max_retries + 1 - attempt` at every
call site). -/
def retryGo (env : Nat → JobEnv) (now : Nat) :
    Nat → Nat → ProcessingJob → ProcessingJob × RunLog × Bool
  | 0, _, job => (job, RunLog.empty, false)
  | rem + 1, attempt, job =>
    let r1 := processJob (env attempt) (preAttempt job attempt) now
    if r1.2.2 then (r1.1, r1.2.1, true)
    else if attempt < r1.1.maxRetries then
      let r2 := retryGo env now rem (attempt + 1) r1.1
      (r2.1,
       RunLog.append { r1.2.1 with sleeps := r1.2.1.sleeps ++ [2 ^ attempt] } r2.2.1,
       r2.2.2)
    else (r1.1, r1.2.1, false)

/-- `QueueProcessor._process_job_with_retry`: the retry controller,
`for attempt in range(job.max_retries + 1)`. -/
def processJobWithRetry (env : Nat → JobEnv) (job : ProcessingJob) (now : Nat) :
    ProcessingJob × RunLog × Bool :=
  retryGo env now (job.maxRetries + 1) 0 job

/-! ## Queue state, submission, worker bookkeeping, cancellation -/

/-- The payload of `QueueProcessor.add_job`'s `job_data` dict. -/
structure JobData where
  id : String
  emailUid : Nat
  subject : String
  sender : String
  date : Nat
  files : List String
deriving DecidableEq, Repr

/-- State of a `QueueProcessor`: the FIFO `job_queue` and the
`processed_jobs` dict (insertion-ordered, keyed by job id). -/
structure QueueState where
  jobQueue : List ProcessingJob
  processedJobs : List (String × ProcessingJob)
deriving DecidableEq, Repr

/-- First-match lookup in the `processed_jobs` dict. -/
def lookupJob (m : List (String × ProcessingJob)) (jobId : String) :
    Option ProcessingJob :=
  (m.find? (fun e => e.1 == jobId)).map (·.2)

/-- Python-dict assignment `m[k] = v`: overwrite in place if the key is
present, otherwise append. -/
def setJobEntry (m : List (String × ProcessingJob)) (k : String)
    (v : ProcessingJob) : List (String × ProcessingJob) :=
  if m.any (fun e => e.1 == k) then
    m.map (fun e => if e.1 == k then (k, v) else e)
  else m ++ [(k, v)]

/-- `QueueProcessor.add_job`: builds a PENDING job from `job_data` and
enqueues it on `job_queue` (the `processed_jobs` dict is not touched). -/
def addJob (st : QueueState) (d : JobData) (now : Nat) : QueueState × ProcessingJob :=
  let job : ProcessingJob :=
    { id := d.id, emailUid := d.emailUid, subject := d.subject,
      sender := d.sender, date := d.date, files := d.files,
      status := .pending, createdAt := now }
  ({ st with jobQueue := st.jobQueue ++ [job] }, job)

/-- One iteration of `QueueProcessor._worker_loop` on a non-empty queue:
dequeue the first job, run it through the retry controller, and store
the result in `processed_jobs` keyed by job id. -/
def workerStep (env : Nat → JobEnv) (st : QueueState) (now : Nat) : QueueState :=
  match st.jobQueue with
  | [] => st
  | job :: rest =>
    let r := processJobWithRetry env job now
    { jobQueue := rest, processedJobs := setJobEntry st.processedJobs r.1.id r.1 }

/-- `QueueProcessor.cancel_job`: looks the id up in `processed_jobs`
only; a found PENDING job is set to CANCELLED (with `completed_at`) and
True is returned; a found non-PENDING job, or an id that is not in the
dict, returns False with the state unchanged. -/
def cancelJob (st : QueueState) (jobId : String) (now : Nat) : QueueState × Bool :=
  match lookupJob st.processedJobs jobId with
  | some job =>
    if job.status = .pending then
      ({ st with
          processedJobs := setJobEntry st.processedJobs jobId
            { job with status := .cancelled, completedAt := some now } },
       true)
    else (st, false)
  | none => (st, false)

/-! ## Tabular data model

A pandas `DataFrame` is modelled as a list of column names and a list of
rows; a cell is missing (`na`), a string, an integer, or a timestamp.
A column's pandas dtype is `object` when it holds at least one string,
`datetime64` when it holds timestamps and no strings, and numeric
otherwise (including all-NaN columns, which pandas types as float64). -/

/-- `str.strip()`: remove leading and trailing whitespace.  (Implemented
over the character list so that proofs can evaluate it.) -/
def pyStrip (s : String) : String :=
  ⟨((s.data.dropWhile Char.isWhitespace).reverse.dropWhile Char.isWhitespace).reverse⟩

/-- `str.lower()`. -/
def pyLower (s : String) : String := ⟨s.data.map Char.toLower⟩

/-- `str.endswith(suffix)`. -/
def pyEndsWith (s suffix : String) : Bool := suffix.data.isSuffixOf s.data

/-- `str.replace(' ', '_')` (single-character pattern). -/
def pyReplaceSpace (s : String) : String :=
  ⟨s.data.map (fun c => if c = ' ' then '_' else c)⟩

/-- `Path(p).name`: the part after the last `/`. -/
def pyBaseName (p : String) : String :=
  ⟨(p.data.reverse.takeWhile (fun c => c ≠ '/')).reverse⟩

/-- One spreadsheet cell. -/
inductive Cell
  | na
  | s (v : String)
  | n (v : Int)
  | t (v : Nat)
deriving DecidableEq, Repr

/-- A parsed tabular dataset. -/
structure DataFrame where
  cols : List String
  rows : List (List Cell)
deriving DecidableEq, Repr

/-- Cell of row `r` in column position `j` (missing positions read as NaN). -/
def cellAt (r : List Cell) (j : Nat) : Cell := r.getD j .na

/-- Column `j` holds at least one string, so its pandas dtype is `object`. -/
def isObjectColumn (df : DataFrame) (j : Nat) : Bool :=
  df.rows.any (fun r => match cellAt r j with | .s _ => true | _ => false)

/-- Column `j` is `datetime64`: no strings, at least one timestamp. -/
def isDatetimeColumn (df : DataFrame) (j : Nat) : Bool :=
  !isObjectColumn df j &&
    df.rows.any (fun r => match cellAt r j with | .t _ => true | _ => false)

/-- `df.dropna(how='all')`: remove rows whose every cell is NaN. -/
def dropAllNaRows (rows : List (List Cell)) : List (List Cell) :=
  rows.filter (fun r => !r.all (fun c => c == .na))

/-- Overwrite every cell of column `j`. -/
def mapColumn (df : DataFrame) (j : Nat) (f : Cell → Cell) : DataFrame :=
  { df with
    rows := df.rows.map (fun r => r.mapIdx (fun i c => if i = j then f c else c)) }

/-- `df[name] = cell` (same value for every row): pandas overwrites an
existing column in place, otherwise appends a new one. -/
def setColumn (df : DataFrame) (name : String) (c : Cell) : DataFrame :=
  if name ∈ df.cols then
    mapColumn df (df.cols.indexOf name) (fun _ => c)
  else
    { cols := df.cols ++ [name], rows := df.rows.map (fun r => r ++ [c]) }

/-! ## Duplicate-detection fingerprints (`file_processor.py`)

`_calculate_file_hash` digests the raw bytes of the file and
`_calculate_content_hash` digests `df.to_string(index=False)`.  MD5 is
modelled as a perfect fingerprint: the digest of the bytes is the bytes
value itself, and the digest of a dataframe is the dataframe itself. -/

/-- Byte content of a file, split into the tabular data the bytes parse
to and an encoding/formatting tag, so that two files with the same
parsed data may still be byte-distinct. -/
structure FileBytes where
  data : DataFrame
  enc : Nat
deriving DecidableEq, Repr

/-- A file handed to the pipeline. -/
structure XFile where
  path : String
  present : Bool
  size : Nat
  bytes : FileBytes
deriving DecidableEq, Repr

/-- `FileProcessor._calculate_file_hash` (MD5 of the raw bytes, modelled
injectively). -/
def calculateFileHash (f : XFile) : FileBytes := f.bytes

/-- `FileProcessor._calculate_content_hash` (MD5 of the dataframe's
printed form, modelled injectively). -/
def calculateContentHash (df : DataFrame) : DataFrame := df

/-- One entry of the persisted `processed_files.json` index
(`file_info` in `mark_file_as_processed`). -/
structure FileRecord where
  filePath : String
  fileHash : FileBytes
  contentHash : DataFrame
  processedAt : Nat
  fileSize : Nat
  recordsCount : Nat
deriving DecidableEq, Repr

/-- State of a `FileProcessor`: the `_processed_files` dict, keyed by
file path, insertion-ordered. -/
structure FPState where
  processedFiles : List (String × FileRecord)
deriving DecidableEq, Repr

/-- Python-dict assignment into the processed-files index. -/
def setFileEntry (m : List (String × FileRecord)) (k : String) (v : FileRecord) :
    List (String × FileRecord) :=
  if m.any (fun e => e.1 == k) then
    m.map (fun e => if e.1 == k then (k, v) else e)
  else m ++ [(k, v)]

/-- `FileProcessor.is_duplicate_file`: scan the index for an entry whose
`file_hash` matches the digest of this file's bytes; return the path of
the first match. -/
def isDuplicateFile (fp : FPState) (f : XFile) : Option String :=
  (fp.processedFiles.find? (fun e => e.2.fileHash == calculateFileHash f)).map (·.1)

/-- `FileProcessor.is_duplicate_content`: scan the index for an entry
whose `content_hash` matches the digest of this dataframe; return the
path of the first match. -/
def isDuplicateContent (fp : FPState) (df : DataFrame) : Option String :=
  (fp.processedFiles.find? (fun e => e.2.contentHash == calculateContentHash df)).map (·.1)

/-- `FileProcessor.mark_file_as_processed`: record the byte digest, the
content digest of the dataframe that was handed in (in `process_job`
this is `loaded_df`, the dataframe produced by
`load_excel_to_temp_table`), the timestamp, file size and row count. -/
def markFileAsProcessed (fp : FPState) (f : XFile) (df : DataFrame) (now : Nat) :
    FPState :=
  { processedFiles :=
      setFileEntry fp.processedFiles f.path
        { filePath := f.path
          fileHash := calculateFileHash f
          contentHash := calculateContentHash df
          processedAt := now
          fileSize := f.size
          recordsCount := df.rows.length } }

/-! ## Validation and cleaning (`file_processor.py`) -/

/-- `FileProcessor.validate_excel_file`: existence, non-zero size, Excel
extension, parse, non-empty dataframe, required `hawb` column. -/
def validateExcelFile (f : XFile) : Except String DataFrame :=
  if !f.present then .error ("File does not exist: " ++ f.path)
  else if f.size == 0 then .error ("File is empty: " ++ f.path)
  else if !(pyEndsWith (pyLower f.path) ".xlsx" || pyEndsWith (pyLower f.path) ".xls") then
    .error ("Not an Excel file: " ++ f.path)
  else
    let df := f.bytes.data
    if df.rows.isEmpty then .error ("Excel file contains no data: " ++ f.path)
    else if !(df.cols.contains "hawb") then .error "Missing required columns"
    else .ok df

/-- `str.strip().lower().replace(' ', '_')` applied to a column name. -/
def cleanColName (s : String) : String :=
  pyReplaceSpace (pyLower (pyStrip s))

/-- `Path(file_path).name`. -/
def baseName (p : String) : String := pyBaseName p

/-- `drop_duplicates(subset=[key], keep='first')` restricted to the key
column at position `j`: keep a row only if its key cell was not seen on
an earlier row. -/
def dedupKeyGo (j : Nat) : List (List Cell) → List Cell → List (List Cell)
  | [], _ => []
  | r :: rest, seen =>
    if cellAt r j ∈ seen then dedupKeyGo j rest seen
    else r :: dedupKeyGo j rest (cellAt r j :: seen)

def dedupByKey (j : Nat) (rows : List (List Cell)) : List (List Cell) :=
  dedupKeyGo j rows []

/-- Key cells of a list of rows. -/
def keyCells (j : Nat) (rows : List (List Cell)) : List Cell :=
  rows.map (fun r => cellAt r j)

/-- The per-cell effect of `_process_dataframe`'s string cleaning on an
`object` column: `astype(str).str.strip()` then `'nan' -> ''` then
`'' -> None`.  `str(nan) = 'nan'` becomes None again; numbers and
timestamps are rendered as (non-empty) strings. -/
def stripObjectCell : Cell → Cell
  | .na => .na
  | .s v => if (pyStrip v).data.isEmpty then .na else .s (pyStrip v)
  | .n v => .s (toString v)
  | .t v => .s (toString v)

/-- `_process_dataframe`'s final loop: string-clean every `object`
column, leave the others alone. -/
def stripObjectColumns (df : DataFrame) : DataFrame :=
  { df with
    rows := df.rows.map (fun r =>
      r.mapIdx (fun j c => if isObjectColumn df j then stripObjectCell c else c)) }

/-- `FileProcessor._process_dataframe`: drop fully-empty rows; drop
duplicate rows on the `hawb` key (keep first) when that column exists;
clean the column names; add the `file_source` and `processed_at`
metadata columns; then string-clean the `object` columns (note: the
value cleaning runs after the key-based deduplication). -/
def processDataframe (df : DataFrame) (filePath : String) (now : Nat) : DataFrame :=
  let df1 : DataFrame := { df with rows := dropAllNaRows df.rows }
  let df2 : DataFrame :=
    if df1.cols.contains "hawb" then
      { df1 with rows := dedupByKey (df1.cols.indexOf "hawb") df1.rows }
    else df1
  let df3 : DataFrame := { df2 with cols := df2.cols.map cleanColName }
  let df4 := setColumn df3 "file_source" (.s (baseName filePath))
  let df5 := setColumn df4 "processed_at" (.t now)
  stripObjectColumns df5

/-- `FileProcessor.process_excel_file`: validate, then the byte-level
duplicate check, then the content-level duplicate check (on the raw
parsed dataframe), then `_process_dataframe`. -/
def processExcelFile (fp : FPState) (f : XFile) (now : Nat) : Except String DataFrame :=
  match validateExcelFile f with
  | .error e => .error e
  | .ok df =>
    match isDuplicateFile fp f with
    | some dup => .error ("File is duplicate of " ++ dup)
    | none =>
      match isDuplicateContent fp df with
      | some dup => .error ("Content is duplicate of " ++ dup)
      | none => .ok (processDataframe df f.path now)

/-! ## Cleaning for the staged load (`database_handler.py`) -/

/-- `astype(str)` rendering of a cell as pandas prints it (`str(nan)` is
`'nan'`). -/
def cellPyStr : Cell → String
  | .na => "nan"
  | .s v => v
  | .n v => toString v
  | .t v => toString v

/-- Does a 10-character window starting here match `\d{4}-\d{2}-\d{2}`? -/
def datePatAt : List Char → Bool
  | a :: b :: c :: d :: '-' :: e :: f :: '-' :: g :: h :: _ =>
    a.isDigit && b.isDigit && c.isDigit && d.isDigit &&
      e.isDigit && f.isDigit && g.isDigit && h.isDigit
  | _ => false

/-- Regex search for `\d{4}-\d{2}-\d{2}` anywhere in the string. -/
def containsDatePattern : List Char → Bool
  | [] => false
  | c :: rest => datePatAt (c :: rest) || containsDatePattern rest

/-- Deterministic timestamp code assigned by the modelled
`pd.to_datetime` to a date-like string. -/
def dateCode (v : String) : Nat :=
  v.data.foldl (fun a c => a * 256 + c.toNat) 0

/-- `pd.to_datetime(col, errors='coerce')` per cell: date-like strings
become timestamps, timestamps stay, everything else coerces to NaT. -/
def toDatetimeCell : Cell → Cell
  | .s v => if containsDatePattern v.data then .t (dateCode v) else .na
  | .t v => .t v
  | _ => .na

/-- `_clean_dataframe`'s datetime pass: an `object` column one of whose
cells prints with a date-like substring is converted with
`pd.to_datetime`. -/
def dtConvStep (df : DataFrame) : DataFrame :=
  { df with
    rows := df.rows.map (fun r =>
      r.mapIdx (fun j c =>
        if isObjectColumn df j &&
            df.rows.any (fun r2 => containsDatePattern (cellPyStr (cellAt r2 j)).data)
        then toDatetimeCell c else c)) }

/-- `_clean_dataframe`'s fillna pass: `object` columns fill NaN with
`''`, numeric columns fill NaN with `0`. -/
def fillnaStep (df : DataFrame) : DataFrame :=
  { df with
    rows := df.rows.map (fun r =>
      r.mapIdx (fun j c =>
        if isObjectColumn df j then (match c with | .na => .s "" | c => c)
        else if !isDatetimeColumn df j then (match c with | .na => .n 0 | c => c)
        else c)) }

/-- `DatabaseHandler._clean_dataframe`: drop fully-empty rows, convert
date-like object columns, fill NaNs, then add the `processed_at`
timestamp and the constant `file_source` metadata columns. -/
def cleanDataframe (df : DataFrame) (now : Nat) : DataFrame :=
  let df1 : DataFrame := { df with rows := dropAllNaRows df.rows }
  let df2 := dtConvStep df1
  let df3 := fillnaStep df2
  let df4 := setColumn df3 "processed_at" (.t now)
  setColumn df4 "file_source" (.s "email_attachment")

/-! ## The per-file step of `process_job` with the concrete file
processor (`queue_processor.py` lines 80-131) -/

/-- Database/filesystem outcomes for one file's staged load. -/
structure DbEnv where
  loadOk : Bool
  upsertOk : Bool
  moveOk : Bool
  cleanupOk : Bool
deriving DecidableEq, Repr

/-- `DatabaseHandler.load_excel_to_temp_table`: re-read the Excel file,
reject empty data or a missing `hawb` column, clean with
`_clean_dataframe`, and create/populate the staging table.  Returns the
loaded dataframe on success. -/
def loadExcelToTempTable (dbe : DbEnv) (f : XFile) (now : Nat) : Option DataFrame :=
  let df := f.bytes.data
  if df.rows.isEmpty then none
  else if !(df.cols.contains "hawb") then none
  else if dbe.loadOk then some (cleanDataframe df now) else none

/-- What happened to one file inside `process_job`'s loop. -/
structure FileActions where
  errorMsg : Option String
  staged : Bool
  cleanupAttempted : Bool
  dropped : Bool
  marked : Bool
  moved : Bool
  records : Nat
deriving DecidableEq, Repr

/-- The body of `process_job`'s file loop for one file: `continue` on a
failed `process_excel_file` (validation or duplicate), on a failed load,
and on a failed upsert — in those cases `cleanup_temp_table` is never
reached; only after a successful upsert are `mark_file_as_processed`,
`move_to_processed` and `cleanup_temp_table` run (the cleanup result is
ignored). -/
def jobFileBody (dbe : DbEnv) (fp : FPState) (f : XFile) (now : Nat) :
    FPState × FileActions :=
  match processExcelFile fp f now with
  | .error e => (fp, ⟨some e, false, false, false, false, false, 0⟩)
  | .ok _ =>
    match loadExcelToTempTable dbe f now with
    | none => (fp, ⟨some ("Failed to load file to temp table: " ++ f.path),
                   false, false, false, false, false, 0⟩)
    | some loadedDf =>
      if !dbe.upsertOk then
        (fp, ⟨some ("Failed to upsert data to target table: " ++ f.path),
              true, false, false, false, false, 0⟩)
      else
        let fp1 := markFileAsProcessed fp f loadedDf now
        (fp1, ⟨none, true, true, dbe.cleanupOk, true, dbe.moveOk,
               loadedDf.rows.length⟩)

/-! ## Upsert statement construction and semantics
(`database_handler.py`, `upsert_data_to_target_table`) -/

/-- `', '.join(columns)`. -/
def columnsStr (cols : List String) : String := String.intercalate ", " cols

/-- `', '.join(f"{col} = src.{col}" for col in columns if col != unique_key)`. -/
def updateStr (cols : List String) (uk : String) : String :=
  String.intercalate ", "
    ((cols.filter (fun c => c ≠ uk)).map (fun c => c ++ " = src." ++ c))

/-- The SQL text built by `upsert_data_to_target_table` (whitespace
normalised to single spaces). -/
def upsertQuery (target fullTemp : String) (cols : List String) (uk : String) :
    String :=
  "INSERT INTO " ++ target ++ " (" ++ columnsStr cols ++ ")" ++
    " SELECT " ++ columnsStr cols ++ " FROM " ++ fullTemp ++ " src" ++
    " ON CONFLICT (" ++ uk ++ ") DO UPDATE SET " ++ updateStr cols uk

/-- The statement shape promised by the specification: insert every
column, select every column from staging, conflict on the business key,
and update every non-key column from the staged row. -/
def specUpsertShape (target fullTemp : String) (cols : List String) (uk : String) :
    String :=
  "INSERT INTO " ++ target ++ " (" ++ String.intercalate ", " cols ++ ")" ++
    " SELECT " ++ String.intercalate ", " cols ++ " FROM " ++ fullTemp ++ " src" ++
    " ON CONFLICT (" ++ uk ++ ") DO UPDATE SET " ++
    String.intercalate ", "
      ((cols.filter (fun c => c ≠ uk)).map (fun c => c ++ " = src." ++ c))

/-- A target-table row for the upsert semantics: the business-key value
and the values of every non-key column. -/
structure KRow where
  key : String
  vals : List Cell
deriving DecidableEq, Repr

/-- Keys of a table. -/
def krKeys (t : List KRow) : List String := t.map KRow.key

/-- The row a key resolves to. -/
def lookupK (t : List KRow) (k : String) : Option KRow :=
  t.find? (fun r => r.key == k)

/-- PostgreSQL semantics of one staged row under
`INSERT ... ON CONFLICT (key) DO UPDATE SET` with every non-key column
in the SET list: a conflicting key has all its non-key columns
overwritten by the staged row, a fresh key is appended. -/
def upsertRow : List KRow → KRow → List KRow
  | [], r => [r]
  | x :: t, r => if x.key == r.key then r :: t else x :: upsertRow t r

/-- The issued statement applied to the whole staging table. -/
def runUpsert (t staged : List KRow) : List KRow :=
  staged.foldl upsertRow t

/-! ## Concrete fixtures used by the claim-level theorems -/

/-- The claimed stability of terminal states, as a predicate on the
trace of status assignments of a pipeline run: after a write of a
terminal status, the next write (if any) is the same status. -/
def terminalStatusStable : List JobStatus → Bool
  | [] => true
  | [_] => true
  | a :: b :: rest => (!a.isTerminal || (b == a)) && terminalStatusStable (b :: rest)

/-- File environment in which every external call succeeds and the
loaded dataframe has five rows. -/
def fileEnvOk : FileEnv := ⟨true, true, true, true, 5⟩

/-- Attempt environment: schema creation fails on the first attempt and
succeeds from the second attempt on. -/
def envFailThenOk : Nat → JobEnv := fun i => ⟨i != 0, fun _ => fileEnvOk⟩

/-- Attempt environment: schema creation fails on every attempt. -/
def envAllFail : Nat → JobEnv := fun _ => ⟨false, fun _ => fileEnvOk⟩

/-- Attempt environment: schema creation succeeds on every attempt. -/
def envAllOk : Nat → JobEnv := fun _ => ⟨true, fun _ => fileEnvOk⟩

/-- A freshly submitted job with no files and the default `max_retries`. -/
def jobNoFiles : ProcessingJob :=
  { id := "j1", emailUid := 1, subject := "tt", sender := "a@b", date := 0,
    files := [], status := .pending, createdAt := 0 }

/-- Per-file outcomes of the two-file scenario: the file missing the
business-key column fails `process_excel_file` and is skipped; the valid
file passes every step with five records. -/
def scenarioFileEnv : String → FileEnv := fun p =>
  if p == "good.xlsx" then ⟨true, true, true, true, 5⟩
  else ⟨false, false, false, false, 0⟩

/-- Attempt environment for the two-file scenario: the schema exists. -/
def scenarioEnv : JobEnv := ⟨true, scenarioFileEnv⟩

/-- The two-file job: one file missing the business-key column, one valid. -/
def scenarioJob : ProcessingJob :=
  { id := "j7", emailUid := 2, subject := "tt", sender := "a@b", date := 0,
    files := ["bad.xlsx", "good.xlsx"], status := .pending, createdAt := 0 }

/-- Submission payload used for the cancellation scenario. -/
def submittedJobData : JobData := ⟨"j1", 1, "tt", "a@b", 0, ["a.xlsx"]⟩

/-- Queue state right after `add_job`: the PENDING job sits in
`job_queue`; `processed_jobs` is untouched. -/
def submittedState : QueueState := (addJob ⟨[], []⟩ submittedJobData 0).1

/-- A job that went through the whole pipeline successfully. -/
def finishedJob : ProcessingJob := (processJobWithRetry envAllOk jobNoFiles 0).1

/-- Queue state after the worker recorded `finishedJob` in the history. -/
def historyState : QueueState := ⟨[], [("j1", finishedJob)]⟩

/-- A one-row dataset with only the business-key column. -/
def dfX : DataFrame := ⟨["hawb"], [[.s "X"]]⟩

/-- First submission of the dataset `dfX`. -/
def fileA : XFile := ⟨"a.xlsx", true, 10, ⟨dfX, 0⟩⟩

/-- A file whose parsed data equals `fileA`'s but whose bytes differ
(different filename and encoding variant). -/
def fileBSameData : XFile := ⟨"b.xlsx", true, 11, ⟨dfX, 1⟩⟩

/-- A byte-identical resubmission of `fileA` under another name. -/
def fileASameBytes : XFile := ⟨"c.xlsx", true, 10, ⟨dfX, 0⟩⟩

/-- Database environment in which every call succeeds. -/
def dbEnvOk : DbEnv := ⟨true, true, true, true⟩

/-- Database environment in which the upsert fails. -/
def dbEnvUpsertFail : DbEnv := ⟨true, false, true, true⟩

/-- An empty processed-files index. -/
def fpEmpty : FPState := ⟨[]⟩

/-- The index after `fileA` was processed successfully. -/
def fpAfterA : FPState := (jobFileBody dbEnvOk fpEmpty fileA 0).1

/-- A dataset whose two rows carry business keys that differ only by
trailing whitespace. -/
def dupKeyDf : DataFrame := ⟨["hawb"], [[.s "A "], [.s "A"]]⟩

/-- A target table holding keys `A` and `B`. -/
def targetTableW : List KRow := [⟨"A", [.s "old"]⟩, ⟨"B", [.s "keep"]⟩]

/-- A staging table updating key `A` and inserting key `C`. -/
def stagingTableW : List KRow := [⟨"A", [.s "new"]⟩, ⟨"C", [.s "ins"]⟩]

/-! ## Basic facts about one attempt -/

@[simp] theorem jobCompletedAt_status (env : JobEnv) (job : ProcessingJob) (now : Nat) :
    (jobCompletedAt env job now).status = .completed := rfl

@[simp] theorem jobCompletedAt_maxRetries (env : JobEnv) (job : ProcessingJob) (now : Nat) :
    (jobCompletedAt env job now).maxRetries = job.maxRetries := rfl

@[simp] theorem jobCompletedAt_completedAt (env : JobEnv) (job : ProcessingJob) (now : Nat) :
    (jobCompletedAt env job now).completedAt = some now := rfl

@[simp] theorem jobCompletedAt_startedAt (env : JobEnv) (job : ProcessingJob) (now : Nat) :
    (jobCompletedAt env job now).startedAt = some now := rfl

@[simp] theorem jobFailedAt_status (job : ProcessingJob) (now : Nat) :
    (jobFailedAt job now).status = .failed := rfl

@[simp] theorem jobFailedAt_maxRetries (job : ProcessingJob) (now : Nat) :
    (jobFailedAt job now).maxRetries = job.maxRetries := rfl

@[simp] theorem jobFailedAt_completedAt (job : ProcessingJob) (now : Nat) :
    (jobFailedAt job now).completedAt = some now := rfl

@[simp] theorem jobFailedAt_startedAt (job : ProcessingJob) (now : Nat) :
    (jobFailedAt job now).startedAt = some now := rfl

@[simp] theorem preAttempt_maxRetries (job : ProcessingJob) (a : Nat) :
    (preAttempt job a).maxRetries = job.maxRetries := by
  unfold preAttempt; split <;> rfl

@[simp] theorem preAttempt_files (job : ProcessingJob) (a : Nat) :
    (preAttempt job a).files = job.files := by
  unfold preAttempt; split <;> rfl

/-! ## Unfolding the retry controller one attempt at a time -/

theorem retryGo_ok (env : Nat → JobEnv) (now rem a : Nat) (job : ProcessingJob)
    (h : (env a).schemaOk = true) :
    retryGo env now (rem + 1) a job =
      (jobCompletedAt (env a) (preAttempt job a) now, attemptLogOk, true) := by
  simp [retryGo, processJob, h]

theorem retryGo_fail_last (env : Nat → JobEnv) (now rem a : Nat) (job : ProcessingJob)
    (h : (env a).schemaOk = false) (hge : ¬ a < job.maxRetries) :
    retryGo env now (rem + 1) a job =
      (jobFailedAt (preAttempt job a) now, attemptLogFail, false) := by
  simp [retryGo, processJob, h, attemptLogFail, hge]

theorem retryGo_fail_step (env : Nat → JobEnv) (now rem a : Nat) (job : ProcessingJob)
    (h : (env a).schemaOk = false) (hlt : a < job.maxRetries) :
    retryGo env now (rem + 1) a job =
      ((retryGo env now rem (a + 1) (jobFailedAt (preAttempt job a) now)).1,
       RunLog.append ⟨[.inProgress, .failed], 1, 1, [2 ^ a], 1⟩
         (retryGo env now rem (a + 1) (jobFailedAt (preAttempt job a) now)).2.1,
       (retryGo env now rem (a + 1) (jobFailedAt (preAttempt job a) now)).2.2) := by
  simp [retryGo, processJob, h, attemptLogFail, hlt, RunLog.append]

/-- When every attempt fails, the retry loop started at attempt `a` with
`n` retries still allowed performs exactly `n + 1` further attempts,
sleeps `2 ^ a, ..., 2 ^ (a + n - 1)` between them (and never after the
last one), leaves the job FAILED, and returns False. -/
theorem retryGo_allFail (env : Nat → JobEnv) (now : Nat)
    (hf : ∀ i, (env i).schemaOk = false) :
    ∀ n a (job : ProcessingJob), job.maxRetries = a + n →
      (retryGo env now (n + 1) a job).1.status = .failed ∧
      (retryGo env now (n + 1) a job).2.1.attempts = n + 1 ∧
      (retryGo env now (n + 1) a job).2.1.sleeps = (List.range' a n).map (2 ^ ·) ∧
      (retryGo env now (n + 1) a job).2.2 = false := by
  intro n
  induction n with
  | zero =>
    intro a job hm
    rw [retryGo_fail_last env now 0 a job (hf a) (by omega)]
    simp [attemptLogFail]
  | succ n ih =>
    intro a job hm
    rw [retryGo_fail_step env now (n + 1) a job (hf a) (by omega)]
    obtain ⟨h1, h2, h3, h4⟩ :=
      ih (a + 1) (jobFailedAt (preAttempt job a) now) (by simp; omega)
    refine ⟨h1, ?_, ?_, h4⟩
    · simp [RunLog.append, h2]; omega
    · simp [RunLog.append, h3, List.range'_succ]

/-- Invariants of the retry loop that hold for every outcome
environment: `started_at` and `completed_at` are assigned once per
attempt, at least one attempt runs, and the loop leaves the job in a
terminal state (COMPLETED or FAILED) with `completed_at` set. -/
theorem retryGo_general (env : Nat → JobEnv) (now : Nat) :
    ∀ n a (job : ProcessingJob), job.maxRetries = a + n →
      (retryGo env now (n + 1) a job).2.1.startedAtWrites =
          (retryGo env now (n + 1) a job).2.1.attempts ∧
      (retryGo env now (n + 1) a job).2.1.completedAtWrites =
          (retryGo env now (n + 1) a job).2.1.attempts ∧
      1 ≤ (retryGo env now (n + 1) a job).2.1.attempts ∧
      ((retryGo env now (n + 1) a job).1.status = .completed ∨
        (retryGo env now (n + 1) a job).1.status = .failed) ∧
      (retryGo env now (n + 1) a job).1.completedAt = some now ∧
      (retryGo env now (n + 1) a job).1.startedAt = some now := by
  intro n
  induction n with
  | zero =>
    intro a job hm
    cases hs : (env a).schemaOk with
    | true => rw [retryGo_ok env now 0 a job hs]; simp [attemptLogOk]
    | false =>
      rw [retryGo_fail_last env now 0 a job hs (by omega)]
      simp [attemptLogFail]
  | succ n ih =>
    intro a job hm
    cases hs : (env a).schemaOk with
    | true => rw [retryGo_ok env now (n + 1) a job hs]; simp [attemptLogOk]
    | false =>
      rw [retryGo_fail_step env now (n + 1) a job hs (by omega)]
      obtain ⟨h1, h2, h3, h4, h5, h6⟩ :=
        ih (a + 1) (jobFailedAt (preAttempt job a) now) (by simp; omega)
      refine ⟨?_, ?_, ?_, h4, h5, h6⟩
      · simp [RunLog.append, h1]
      · simp [RunLog.append, h2]
      · simp [RunLog.append]

/-- When the first `k` attempts fail and attempt `k` (counting from the
loop's starting attempt `a`) succeeds, the retry loop performs exactly
`k + 1` attempts, sleeps `2 ^ a, ..., 2 ^ (a + k - 1)`, leaves the job
COMPLETED and returns True: a successful attempt is never retried. -/
theorem retryGo_firstSuccess (env : Nat → JobEnv) (now : Nat) :
    ∀ k n a (job : ProcessingJob), job.maxRetries = a + n → k ≤ n →
      (∀ i, i < k → (env (a + i)).schemaOk = false) →
      (env (a + k)).schemaOk = true →
      (retryGo env now (n + 1) a job).2.2 = true ∧
      (retryGo env now (n + 1) a job).2.1.attempts = k + 1 ∧
      (retryGo env now (n + 1) a job).2.1.sleeps = (List.range' a k).map (2 ^ ·) ∧
      (retryGo env now (n + 1) a job).1.status = .completed := by
  intro k
  induction k with
  | zero =>
    intro n a job hm _ _ hs
    rw [retryGo_ok env now n a job (by simpa using hs)]
    simp [attemptLogOk]
  | succ k ih =>
    intro n a job hm hk hf hs
    have hfa : (env a).schemaOk = false := by simpa using hf 0 (Nat.succ_pos k)
    obtain ⟨m, rfl⟩ : ∃ m, n = m + 1 := ⟨n - 1, by omega⟩
    rw [retryGo_fail_step env now (m + 1) a job hfa (by omega)]
    obtain ⟨h1, h2, h3, h4⟩ :=
      ih m (a + 1) (jobFailedAt (preAttempt job a) now) (by simp; omega)
        (by omega)
        (fun i hi => by
          have := hf (i + 1) (by omega)
          simpa [Nat.add_assoc, Nat.add_comm 1 i] using this)
        (by simpa [Nat.add_assoc, Nat.add_comm 1 k] using hs)
    refine ⟨h1, ?_, ?_, h4⟩
    · simp [RunLog.append, h2]; omega
    · simp [RunLog.append, h3, List.range'_succ]

/-! ## Claim C1 -/

/-- **C1, counterexample.** In a pipeline run whose first attempt fails
and whose second attempt succeeds, the status-write trace is
IN_PROGRESS, FAILED, IN_PROGRESS, COMPLETED: the job leaves the terminal
FAILED state when the retry controller starts the next attempt, so the
claim "no subsequent operation of the pipeline ever changes the status
of a job in a terminal state" is false on this concrete run. -/
theorem c1_terminal_state_reentered_on_retry :
    (processJobWithRetry envFailThenOk jobNoFiles 3).2.1.statusWrites =
      [.inProgress, .failed, .inProgress, .completed] ∧
    terminalStatusStable
      (processJobWithRetry envFailThenOk jobNoFiles 3).2.1.statusWrites = false := by
  decide

/-- **C1, amended.** Once the retry controller has returned, the job's
status is terminal; and an operation arriving after that — in
particular a cancellation request for a job whose recorded status is
terminal — returns failure and leaves the state unchanged.  The
original claim fails only inside the retry loop, where a FAILED status
written by an unsuccessful attempt is overwritten to IN_PROGRESS when
the next attempt starts. -/
theorem c1_terminal_stable_after_retry :
    (∀ env (job : ProcessingJob) now,
      (processJobWithRetry env job now).1.status.isTerminal = true) ∧
    (∀ st jobId now (j : ProcessingJob),
      lookupJob st.processedJobs jobId = some j →
      j.status.isTerminal = true →
      cancelJob st jobId now = (st, false)) := by
  constructor
  · intro env job now
    have h := (retryGo_general env now job.maxRetries 0 job (by omega)).2.2.2.1
    unfold processJobWithRetry
    rcases h with h | h <;> simp [h, JobStatus.isTerminal]
  · intro st jobId now j hl ht
    have hne : ¬ j.status = .pending := by
      intro he
      rw [he] at ht
      simp [JobStatus.isTerminal] at ht
    unfold cancelJob
    rw [hl]
    simp [hne]

/-- **C1, witness.** A run of the full pipeline ends terminal, and
cancelling the recorded (COMPLETED) job afterwards fails without
changing the state. -/
theorem c1_terminal_stable_after_retry_witness :
    ((processJobWithRetry envAllOk jobNoFiles 0).1.status.isTerminal = true) ∧
    cancelJob historyState "j1" 5 = (historyState, false) :=
  ⟨c1_terminal_stable_after_retry.1 envAllOk jobNoFiles 0,
   c1_terminal_stable_after_retry.2 historyState "j1" 5 finishedJob
     (by decide) (by decide)⟩

/-! ## Claim C2 -/

/-- **C2, counterexample.** In a pipeline run whose first attempt fails
and whose second succeeds, `started_at` and `completed_at` are each
assigned twice — not "exactly once" as claimed (the claim explicitly
covers jobs whose execution fails and is retried). -/
theorem c2_timestamps_reassigned_on_retry :
    (processJobWithRetry envFailThenOk jobNoFiles 3).2.1.startedAtWrites = 2 ∧
    (processJobWithRetry envFailThenOk jobNoFiles 3).2.1.completedAtWrites = 2 ∧
    ¬ (processJobWithRetry envFailThenOk jobNoFiles 3).2.1.startedAtWrites = 1 ∧
    ¬ (processJobWithRetry envFailThenOk jobNoFiles 3).2.1.completedAtWrites = 1 := by
  decide

/-- **C2, amended.** `started_at` is assigned at the start of every
attempt (each transition into IN_PROGRESS) and `completed_at` at the
end of every attempt, so each is written once per attempt — exactly
once only for a job processed in a single attempt, which is the case
whenever the first attempt succeeds.  After the pipeline finishes the
status is terminal and `completed_at` is set, so "`completed_at` is set
iff the final status is terminal" does hold. -/
theorem c2_timestamps_once_per_attempt :
    ∀ env (job : ProcessingJob) now,
      (processJobWithRetry env job now).2.1.startedAtWrites =
        (processJobWithRetry env job now).2.1.attempts ∧
      (processJobWithRetry env job now).2.1.completedAtWrites =
        (processJobWithRetry env job now).2.1.attempts ∧
      1 ≤ (processJobWithRetry env job now).2.1.attempts ∧
      (processJobWithRetry env job now).1.completedAt = some now ∧
      (processJobWithRetry env job now).1.status.isTerminal = true ∧
      ((env 0).schemaOk = true → (processJobWithRetry env job now).2.1.attempts = 1) := by
  intro env job now
  obtain ⟨h1, h2, h3, h4, h5, _⟩ :=
    retryGo_general env now job.maxRetries 0 job (by omega)
  unfold processJobWithRetry
  refine ⟨h1, h2, h3, h5, ?_, ?_⟩
  · rcases h4 with h | h <;> simp [h, JobStatus.isTerminal]
  · intro hs
    have := (retryGo_firstSuccess env now 0 job.maxRetries 0 job (by omega)
      (Nat.zero_le _) (fun i hi => absurd hi (Nat.not_lt_zero i))
      (by simpa using hs)).2.1
    simpa using this

/-- **C2, witness.** A job whose first attempt succeeds writes each
timestamp exactly once. -/
theorem c2_timestamps_once_per_attempt_witness :
    (processJobWithRetry envAllOk jobNoFiles 0).2.1.startedAtWrites =
      (processJobWithRetry envAllOk jobNoFiles 0).2.1.attempts ∧
    (processJobWithRetry envAllOk jobNoFiles 0).2.1.attempts = 1 :=
  ⟨(c2_timestamps_once_per_attempt envAllOk jobNoFiles 0).1,
   (c2_timestamps_once_per_attempt envAllOk jobNoFiles 0).2.2.2.2.2 rfl⟩

/-! ## Claim C3 -/

/-- **C3.** If every attempt of a job fails, the retry controller
performs exactly `max_retries + 1` attempts, sleeps
`2^0, 2^1, ..., 2^(max_retries-1)` time units between consecutive
attempts (so never after the final one), and leaves the job FAILED; if
the first `k` attempts fail and attempt `k` succeeds, exactly `k + 1`
attempts run, the job is COMPLETED, and it is never retried
afterwards. -/
theorem c3_retry_backoff_schedule :
    (∀ env (job : ProcessingJob) now, (∀ i, (env i).schemaOk = false) →
      (processJobWithRetry env job now).2.1.attempts = job.maxRetries + 1 ∧
      (processJobWithRetry env job now).2.1.sleeps =
        (List.range job.maxRetries).map (2 ^ ·) ∧
      (processJobWithRetry env job now).1.status = .failed ∧
      (processJobWithRetry env job now).2.2 = false) ∧
    (∀ env (job : ProcessingJob) now k, k ≤ job.maxRetries →
      (∀ i, i < k → (env i).schemaOk = false) → (env k).schemaOk = true →
      (processJobWithRetry env job now).2.1.attempts = k + 1 ∧
      (processJobWithRetry env job now).2.1.sleeps = (List.range k).map (2 ^ ·) ∧
      (processJobWithRetry env job now).1.status = .completed ∧
      (processJobWithRetry env job now).2.2 = true) := by
  constructor
  · intro env job now hf
    obtain ⟨h1, h2, h3, h4⟩ := retryGo_allFail env now hf job.maxRetries 0 job (by omega)
    unfold processJobWithRetry
    exact ⟨h2, by rw [h3, List.range_eq_range'], h1, h4⟩
  · intro env job now k hk hf hs
    obtain ⟨h1, h2, h3, h4⟩ :=
      retryGo_firstSuccess env now k job.maxRetries 0 job (by omega) hk
        (fun i hi => by simpa using hf i hi) (by simpa using hs)
    unfold processJobWithRetry
    exact ⟨h2, by rw [h3, List.range_eq_range'], h4, h1⟩

/-- **C3, witness.** With the default `max_retries = 3`: an always
failing job is attempted 4 times with backoff delays 1, 2, 4 and ends
FAILED; a job failing once and then succeeding runs 2 attempts and ends
COMPLETED. -/
theorem c3_retry_backoff_schedule_witness :
    ((processJobWithRetry envAllFail jobNoFiles 0).2.1.attempts = 4 ∧
     (processJobWithRetry envAllFail jobNoFiles 0).2.1.sleeps = [1, 2, 4] ∧
     (processJobWithRetry envAllFail jobNoFiles 0).1.status = .failed) ∧
    ((processJobWithRetry envFailThenOk jobNoFiles 0).2.1.attempts = 2 ∧
     (processJobWithRetry envFailThenOk jobNoFiles 0).1.status = .completed) := by
  have ha := c3_retry_backoff_schedule.1 envAllFail jobNoFiles 0 (fun i => rfl)
  have hb := c3_retry_backoff_schedule.2 envFailThenOk jobNoFiles 0 1 (by decide)
    (fun i hi => by
      have : i = 0 := by omega
      subst this
      rfl)
    (by decide)
  exact ⟨⟨by simpa using ha.1, by simpa using ha.2.1, ha.2.2.1⟩,
         ⟨by simpa using hb.1, hb.2.2.1⟩⟩

/-! ## Claim C7 -/

/-- **C7.** `process_job` ends COMPLETED whenever the staging schema
could be created, regardless of how many individual files failed, and
FAILED exactly when it could not; in the two-file scenario (one file
missing the business-key column, one valid) the job ends COMPLETED with
`processed_files = 1` and `failed_files = 1`, also through the full
retry pipeline. -/
theorem c7_job_completes_despite_file_failures :
    (∀ env (job : ProcessingJob) now,
      (processJob env job now).1.status =
        (if env.schemaOk = true then JobStatus.completed else JobStatus.failed)) ∧
    (processJob scenarioEnv scenarioJob 0).1.status = .completed ∧
    (processJob scenarioEnv scenarioJob 0).1.processingStats = some ⟨5, 1, 1, 0⟩ ∧
    (processJobWithRetry (fun _ => scenarioEnv) scenarioJob 0).1.status = .completed := by
  refine ⟨?_, by decide, by decide, by decide⟩
  intro env job now
  cases h : env.schemaOk <;> simp [processJob, h]

/-! ## Claim C8 -/

/-- **C8.** A job that has been submitted and is still PENDING cannot in
fact be cancelled: `add_job` puts the job only on `job_queue`, while
`cancel_job` looks the id up only in `processed_jobs` (which the worker
fills after a job finishes), so the request returns failure and the job
stays PENDING — contradicting the claim that cancelling a PENDING job
succeeds and moves it to CANCELLED. -/
theorem c8_pending_job_cancellation_fails :
    (addJob ⟨[], []⟩ submittedJobData 0).2.status = .pending ∧
    lookupJob submittedState.processedJobs "j1" = none ∧
    cancelJob submittedState "j1" 1 = (submittedState, false) ∧
    submittedState.jobQueue.map ProcessingJob.status = [.pending] := by
  decide

/-! ## Duplicate-index facts -/

/-- A matching byte fingerprint in the index makes `is_duplicate_file`
report a duplicate. -/
theorem isDuplicateFile_of_mem (fp : FPState) (f : XFile)
    (h : ∃ e ∈ fp.processedFiles, e.2.fileHash = calculateFileHash f) :
    ∃ p, isDuplicateFile fp f = some p := by
  obtain ⟨e, he, hh⟩ := h
  have hsome : (fp.processedFiles.find?
      (fun e => e.2.fileHash == calculateFileHash f)).isSome := by
    rw [List.find?_isSome]
    exact ⟨e, he, by simp [hh]⟩
  obtain ⟨y, hy⟩ := Option.isSome_iff_exists.mp hsome
  exact ⟨y.1, by simp [isDuplicateFile, hy]⟩

/-! ## Deduplication facts (`_process_dataframe`) -/

/-- The rows kept by `drop_duplicates(subset=[key], keep='first')` have
pairwise distinct key cells, none of which is in the seen set. -/
theorem dedupKeyGo_keys_nodup (j : Nat) :
    ∀ (rows : List (List Cell)) (seen : List Cell),
      (keyCells j (dedupKeyGo j rows seen)).Nodup ∧
      ∀ k ∈ keyCells j (dedupKeyGo j rows seen), k ∉ seen := by
  intro rows
  induction rows with
  | nil => intro seen; simp [dedupKeyGo, keyCells]
  | cons r rest ih =>
    intro seen
    by_cases hmem : cellAt r j ∈ seen
    · simpa [dedupKeyGo, hmem] using ih seen
    · obtain ⟨ih1, ih2⟩ := ih (cellAt r j :: seen)
      refine ⟨?_, ?_⟩
      · simp only [dedupKeyGo, hmem, if_false, keyCells, List.map_cons, List.nodup_cons]
        refine ⟨fun hk => ?_, ih1⟩
        exact (ih2 _ hk) (List.mem_cons_self _ _)
      · intro k hk
        simp only [dedupKeyGo, hmem, if_false, keyCells, List.map_cons,
          List.mem_cons] at hk
        rcases hk with rfl | hk
        · exact hmem
        · exact fun hs => (ih2 k hk) (List.mem_cons_of_mem _ hs)

/-- Keep-first: looking up a key that is not in the seen set finds the
same (first) row before and after the deduplication. -/
theorem dedupKeyGo_find? (j : Nat) (k : Cell) :
    ∀ (rows : List (List Cell)) (seen : List Cell), k ∉ seen →
      (dedupKeyGo j rows seen).find? (fun r => cellAt r j == k) =
        rows.find? (fun r => cellAt r j == k) := by
  intro rows
  induction rows with
  | nil => intro seen _; rfl
  | cons r rest ih =>
    intro seen hk
    by_cases hmem : cellAt r j ∈ seen
    · have hne : (cellAt r j == k) = false := by
        rcases h : cellAt r j == k with _ | _
        · rfl
        · exact absurd (eq_of_beq h ▸ hmem) hk
      simp only [dedupKeyGo, hmem, if_true, List.find?_cons, hne]
      exact ih seen hk
    · rcases h : cellAt r j == k with _ | _
      · have hk2 : k ∉ cellAt r j :: seen := by
          intro hin
          rcases List.mem_cons.mp hin with rfl | hin
          · simp at h
          · exact hk hin
        simp only [dedupKeyGo, hmem, if_false, List.find?_cons, h]
        exact ih _ hk2
      · simp [dedupKeyGo, hmem, List.find?_cons, h]

/-- Rows surviving `dropna(how='all')` are not fully empty. -/
theorem dropAllNaRows_mem (rows : List (List Cell)) (r : List Cell)
    (h : r ∈ dropAllNaRows rows) : (r.all (fun c => c == Cell.na)) = false := by
  have := List.of_mem_filter h
  simpa using this

/-! ## Upsert semantics facts -/

@[simp] theorem krKeys_nil : krKeys [] = [] := rfl

@[simp] theorem krKeys_cons (x : KRow) (t : List KRow) :
    krKeys (x :: t) = x.key :: krKeys t := rfl

theorem upsertRow_cons_hit (x : KRow) (t : List KRow) (r : KRow)
    (h : (x.key == r.key) = true) : upsertRow (x :: t) r = r :: t := by
  simp [upsertRow, h]

theorem upsertRow_cons_miss (x : KRow) (t : List KRow) (r : KRow)
    (h : (x.key == r.key) = false) : upsertRow (x :: t) r = x :: upsertRow t r := by
  simp [upsertRow, h]

theorem lookupK_cons_hit (x : KRow) (t : List KRow) (k : String)
    (h : (x.key == k) = true) : lookupK (x :: t) k = some x := by
  simp [lookupK, List.find?_cons, h]

theorem lookupK_cons_miss (x : KRow) (t : List KRow) (k : String)
    (h : (x.key == k) = false) : lookupK (x :: t) k = lookupK t k := by
  simp [lookupK, List.find?_cons, h]

/-- Keys after one upsert step come from the target or the staged row. -/
theorem upsertRow_key_mem (r : KRow) :
    ∀ (t : List KRow) (k : String), k ∈ krKeys (upsertRow t r) →
      k ∈ krKeys t ∨ k = r.key := by
  intro t
  induction t with
  | nil => intro k hk; simpa [upsertRow] using hk
  | cons x rest ih =>
    intro k hk
    rcases hx : x.key == r.key with _ | _
    · rw [upsertRow_cons_miss x rest r hx, krKeys_cons, List.mem_cons] at hk
      rcases hk with rfl | hk
      · exact Or.inl (by simp)
      · rcases ih k hk with h | h
        · exact Or.inl (by simp [h])
        · exact Or.inr h
    · rw [upsertRow_cons_hit x rest r hx, krKeys_cons, List.mem_cons] at hk
      rcases hk with rfl | hk
      · exact Or.inr rfl
      · exact Or.inl (by simp [hk])

/-- Applying one staged row makes its key resolve to exactly that row. -/
theorem upsertRow_lookup_self (r : KRow) :
    ∀ t : List KRow, lookupK (upsertRow t r) r.key = some r := by
  intro t
  induction t with
  | nil => simp [upsertRow, lookupK, List.find?_cons]
  | cons x rest ih =>
    rcases hx : x.key == r.key with _ | _
    · rw [upsertRow_cons_miss x rest r hx, lookupK_cons_miss x _ _ hx]
      exact ih
    · rw [upsertRow_cons_hit x rest r hx, lookupK_cons_hit _ _ _ (by simp)]

/-- Applying a staged row leaves every other key's resolution alone. -/
theorem upsertRow_lookup_other (r : KRow) (k : String) (hk : (k == r.key) = false) :
    ∀ t : List KRow, lookupK (upsertRow t r) k = lookupK t k := by
  have hrk : (r.key == k) = false := by
    rw [beq_eq_false_iff_ne] at hk ⊢
    exact hk.symm
  intro t
  induction t with
  | nil => simp [upsertRow, lookupK, List.find?_cons, hrk]
  | cons x rest ih =>
    rcases hx : x.key == r.key with _ | _
    · rw [upsertRow_cons_miss x rest r hx]
      rcases hxk : x.key == k with _ | _
      · rw [lookupK_cons_miss x _ _ hxk, lookupK_cons_miss x _ _ hxk]
        exact ih
      · rw [lookupK_cons_hit x _ _ hxk, lookupK_cons_hit x _ _ hxk]
    · have hxk : (x.key == k) = false := by
        rw [beq_eq_false_iff_ne] at hrk ⊢
        rw [eq_of_beq hx]
        exact hrk
      rw [upsertRow_cons_hit x rest r hx, lookupK_cons_miss r _ _ hrk,
        lookupK_cons_miss x _ _ hxk]

/-- Keys absent from the staging table resolve as before the upsert. -/
theorem runUpsert_lookup_notmem (k : String) :
    ∀ (staged t : List KRow), (∀ r ∈ staged, (k == r.key) = false) →
      lookupK (runUpsert t staged) k = lookupK t k := by
  intro staged
  induction staged with
  | nil => intro t _; rfl
  | cons r0 rest ih =>
    intro t h
    rw [show runUpsert t (r0 :: rest) = runUpsert (upsertRow t r0) rest from rfl,
      ih (upsertRow t r0) (fun r hr => h r (List.mem_cons_of_mem _ hr)),
      upsertRow_lookup_other r0 k (h r0 (List.mem_cons_self _ _))]

/-- One upsert step never duplicates a key. -/
theorem upsertRow_keys_nodup (r : KRow) :
    ∀ t : List KRow, (krKeys t).Nodup → (krKeys (upsertRow t r)).Nodup := by
  intro t
  induction t with
  | nil => intro _; simp [upsertRow]
  | cons x rest ih =>
    intro h
    have h2 := List.nodup_cons.mp (krKeys_cons x rest ▸ h)
    rcases hx : x.key == r.key with _ | _
    · rw [upsertRow_cons_miss x rest r hx, krKeys_cons]
      refine List.nodup_cons.mpr ⟨fun hmem => ?_, ih h2.2⟩
      rcases upsertRow_key_mem r rest x.key hmem with hm | hm
      · exact h2.1 hm
      · rw [beq_eq_false_iff_ne] at hx
        exact hx hm
    · rw [upsertRow_cons_hit x rest r hx, krKeys_cons]
      refine List.nodup_cons.mpr ⟨fun hmem => ?_, h2.2⟩
      rw [← eq_of_beq hx] at hmem
      exact h2.1 hmem

/-- The whole upsert never duplicates a key. -/
theorem runUpsert_keys_nodup :
    ∀ (staged t : List KRow), (krKeys t).Nodup →
      (krKeys (runUpsert t staged)).Nodup := by
  intro staged
  induction staged with
  | nil => intro t h; exact h
  | cons r0 rest ih =>
    intro t h
    rw [show runUpsert t (r0 :: rest) = runUpsert (upsertRow t r0) rest from rfl]
    exact ih (upsertRow t r0) (upsertRow_keys_nodup r0 t h)

/-- Every staged row wins: after the upsert its key resolves to exactly
the staged row (all non-key columns overwritten). -/
theorem runUpsert_lookup_staged :
    ∀ (staged t : List KRow), (krKeys staged).Nodup →
      ∀ r ∈ staged, lookupK (runUpsert t staged) r.key = some r := by
  intro staged
  induction staged with
  | nil => intro t _ r hr; simp at hr
  | cons r0 rest ih =>
    intro t hnd r hr
    have h2 := List.nodup_cons.mp (krKeys_cons r0 rest ▸ hnd)
    rw [show runUpsert t (r0 :: rest) = runUpsert (upsertRow t r0) rest from rfl]
    rcases List.mem_cons.mp hr with rfl | hr
    · rw [runUpsert_lookup_notmem r.key rest (upsertRow t r) (fun r2 hr2 => ?_),
        upsertRow_lookup_self]
      rcases h : r.key == r2.key with _ | _
      · rfl
      · exact absurd (List.mem_map.mpr ⟨r2, hr2, (eq_of_beq h).symm⟩) h2.1
    · exact ih (upsertRow t r0) h2.2 r hr

/-! ## Claim C4 -/

/-- **C4.** A file whose parsed tabular data is identical to a
previously processed file's (here: same one-row dataset, different
bytes/filename) is **not** rejected by the content-duplicate check and
is staged and fully processed again: `mark_file_as_processed` stores
the content digest of `loaded_df` — the dataframe produced by
`_clean_dataframe`, which contains the `processed_at` wall-clock
timestamp and `file_source` metadata columns — while
`is_duplicate_content` probes with the digest of the raw parsed
dataframe, so the two digests can never match. -/
theorem c4_content_duplicate_not_detected :
    fileBSameData.bytes.data = fileA.bytes.data ∧
    ¬ fileBSameData.bytes = fileA.bytes ∧
    (jobFileBody dbEnvOk fpEmpty fileA 0).2.marked = true ∧
    isDuplicateContent fpAfterA fileBSameData.bytes.data = none ∧
    (jobFileBody dbEnvOk fpAfterA fileBSameData 5).2.errorMsg = none ∧
    (jobFileBody dbEnvOk fpAfterA fileBSameData 5).2.staged = true ∧
    (jobFileBody dbEnvOk fpAfterA fileBSameData 5).2.marked = true := by
  decide

/-! ## Claim C5 -/

/-- **C5.** A file whose bytes are identical to those of a previously
successfully processed file (so its byte fingerprint is in the
processed-files index) is rejected by the byte-fingerprint check, with
a duplicate error naming the prior record, and the per-file pipeline
performs no staging-table work for it and leaves the index unchanged. -/
theorem c5_byte_duplicate_rejected (fp : FPState) (f : XFile) (dbe : DbEnv)
    (now : Nat) (df : DataFrame)
    (hv : validateExcelFile f = .ok df)
    (hdup : ∃ e ∈ fp.processedFiles, e.2.fileHash = calculateFileHash f) :
    ∃ p, isDuplicateFile fp f = some p ∧
      processExcelFile fp f now = .error ("File is duplicate of " ++ p) ∧
      jobFileBody dbe fp f now =
        (fp, ⟨some ("File is duplicate of " ++ p),
              false, false, false, false, false, 0⟩) := by
  obtain ⟨p, hp⟩ := isDuplicateFile_of_mem fp f hdup
  have hpe : processExcelFile fp f now = .error ("File is duplicate of " ++ p) := by
    simp [processExcelFile, hv, hp]
  exact ⟨p, hp, hpe, by simp [jobFileBody, hpe]⟩

/-- **C5, witness.** After `fileA` is processed, resubmitting its exact
bytes under the name `c.xlsx` is rejected as a duplicate of `a.xlsx`
with no staging work. -/
theorem c5_byte_duplicate_rejected_witness :
    (validateExcelFile fileASameBytes = .ok dfX) ∧
    (∃ e ∈ fpAfterA.processedFiles,
      e.2.fileHash = calculateFileHash fileASameBytes) ∧
    ∃ p, isDuplicateFile fpAfterA fileASameBytes = some p ∧
      processExcelFile fpAfterA fileASameBytes 5 =
        .error ("File is duplicate of " ++ p) ∧
      jobFileBody dbEnvOk fpAfterA fileASameBytes 5 =
        (fpAfterA, ⟨some ("File is duplicate of " ++ p),
                    false, false, false, false, false, 0⟩) :=
  ⟨rfl, by decide,
   c5_byte_duplicate_rejected fpAfterA fileASameBytes dbEnvOk 5 dfX
     rfl (by decide)⟩

/-! ## Claim C6 -/

/-- **C6, counterexample.** When the upsert fails for a file, the
per-file loop `continue`s before ever reaching `cleanup_temp_table`: a
staging table was created for the file but is not dropped, contradicting
the claim that the staging table is dropped regardless of whether the
load or upsert step succeeded. -/
theorem c6_staging_table_leaks_on_upsert_failure :
    (jobFileBody dbEnvUpsertFail fpEmpty fileA 0).2.staged = true ∧
    (jobFileBody dbEnvUpsertFail fpEmpty fileA 0).2.cleanupAttempted = false ∧
    (jobFileBody dbEnvUpsertFail fpEmpty fileA 0).2.dropped = false := by
  decide

/-- **C6, amended.** `cleanup_temp_table` is reached exactly when a
staging table was created **and** the upsert succeeded (it then runs
regardless of the mark/move outcomes); when the upsert fails the
staging table is left in place.  Cleanup is best-effort: its outcome
changes nothing about the file's processing result except the `dropped`
flag itself, so a cleanup failure does not mask the original error. -/
theorem c6_cleanup_only_on_success :
    ∀ (dbe : DbEnv) (fp : FPState) (f : XFile) (now : Nat) (b : Bool),
      ((jobFileBody dbe fp f now).2.cleanupAttempted =
        ((jobFileBody dbe fp f now).2.staged && dbe.upsertOk)) ∧
      (jobFileBody { dbe with cleanupOk := b } fp f now).1 =
        (jobFileBody dbe fp f now).1 ∧
      { (jobFileBody { dbe with cleanupOk := b } fp f now).2 with dropped := false } =
        { (jobFileBody dbe fp f now).2 with dropped := false } := by
  intro dbe fp f now b
  have hload : loadExcelToTempTable { dbe with cleanupOk := b } f now =
      loadExcelToTempTable dbe f now := by
    simp [loadExcelToTempTable]
  cases hp : processExcelFile fp f now with
  | error e => simp [jobFileBody, hp]
  | ok cleaned =>
    cases hl : loadExcelToTempTable dbe f now with
    | none => simp [jobFileBody, hp, hl, hload]
    | some loadedDf =>
      simp only [jobFileBody, hp, hload, hl]
      cases hu : dbe.upsertOk with
      | false => simp [hu]
      | true => simp [hu]

/-! ## Claim C9 -/

/-- **C9.** The SQL text built by `upsert_data_to_target_table` is
exactly the specified statement shape — insert every column, select
every column from the staging table, conflict on the business key, and
`SET col = src.col` for every column other than the business key — and
under the statement's merge semantics, on key-distinct tables, no
business key is ever duplicated and every staged row's key ends up
resolving to the staged row (all non-key columns overwritten). -/
theorem c9_upsert_statement_shape_and_merge :
    (∀ (target fullTemp : String) (cols : List String) (uk : String),
      upsertQuery target fullTemp cols uk = specUpsertShape target fullTemp cols uk) ∧
    (∀ (t staged : List KRow), (krKeys t).Nodup → (krKeys staged).Nodup →
      (krKeys (runUpsert t staged)).Nodup ∧
      (∀ r ∈ staged, lookupK (runUpsert t staged) r.key = some r)) :=
  ⟨fun _ _ _ _ => rfl,
   fun t staged h1 h2 =>
     ⟨runUpsert_keys_nodup staged t h1,
      fun r hr => runUpsert_lookup_staged staged t h2 r hr⟩⟩

/-- **C9, witness.** The statement shape at the configured target table
and business key `hawb`, and a concrete merge: key `A` is overwritten by
the staged row, key `C` is inserted, no key is duplicated. -/
theorem c9_upsert_statement_shape_and_merge_witness :
    upsertQuery "tracking_data" "temp_processing.t1"
        ["hawb", "status", "processed_at"] "hawb" =
      specUpsertShape "tracking_data" "temp_processing.t1"
        ["hawb", "status", "processed_at"] "hawb" ∧
    (krKeys (runUpsert targetTableW stagingTableW)).Nodup ∧
    lookupK (runUpsert targetTableW stagingTableW) "A" = some ⟨"A", [.s "new"]⟩ := by
  refine ⟨c9_upsert_statement_shape_and_merge.1 "tracking_data"
    "temp_processing.t1" ["hawb", "status", "processed_at"] "hawb", ?_, ?_⟩
  · exact (c9_upsert_statement_shape_and_merge.2 targetTableW stagingTableW
      (by decide) (by decide)).1
  · exact (c9_upsert_statement_shape_and_merge.2 targetTableW stagingTableW
      (by decide) (by decide)).2 ⟨"A", [.s "new"]⟩ (by decide)

/-! ## Claim C10 -/

/-- **C10, counterexample.** On a dataset whose two rows carry the keys
`"A "` and `"A"`, the cleaning step deduplicates on the raw key values
(which differ) and only afterwards strips whitespace from the values, so
the cleaned dataset contains **two** rows with the business-key value
`"A"` — refuting "at most one row per business-key value". -/
theorem c10_duplicate_keys_survive_cleaning :
    (processDataframe dupKeyDf "f.xlsx" 7).rows =
      [[.s "A", .s "f.xlsx", .t 7], [.s "A", .s "f.xlsx", .t 7]] ∧
    ¬ (keyCells ((processDataframe dupKeyDf "f.xlsx" 7).cols.indexOf "hawb")
        (processDataframe dupKeyDf "f.xlsx" 7).rows).Nodup := by
  decide

/-- **C10, amended.** The cleaning step removes fully-empty rows and
drops duplicate rows on the business key keeping the first occurrence,
so after deduplication there is at most one row per **raw** key value
(and each kept row is the first row bearing its key); but because the
string cleaning of object columns runs only after the deduplication,
two rows whose keys differ only in surrounding whitespace both survive,
so the final cleaned dataset may contain more than one row per cleaned
key value (see the counterexample). -/
theorem c10_dedup_on_raw_keys_before_value_cleaning :
    ∀ (df : DataFrame) (path : String) (now : Nat),
      df.cols.contains "hawb" = true →
      (∀ r ∈ dropAllNaRows df.rows, (r.all (fun c => c == Cell.na)) = false) ∧
      (keyCells (df.cols.indexOf "hawb")
        (dedupByKey (df.cols.indexOf "hawb") (dropAllNaRows df.rows))).Nodup ∧
      (∀ k : Cell,
        (dedupByKey (df.cols.indexOf "hawb") (dropAllNaRows df.rows)).find?
            (fun r => cellAt r (df.cols.indexOf "hawb") == k) =
          (dropAllNaRows df.rows).find?
            (fun r => cellAt r (df.cols.indexOf "hawb") == k)) ∧
      processDataframe df path now =
        stripObjectColumns
          (setColumn
            (setColumn
              ⟨df.cols.map cleanColName,
               dedupByKey (df.cols.indexOf "hawb") (dropAllNaRows df.rows)⟩
              "file_source" (.s (baseName path)))
            "processed_at" (.t now)) := by
  intro df path now h
  refine ⟨fun r hr => dropAllNaRows_mem df.rows r hr, ?_, ?_, ?_⟩
  · exact (dedupKeyGo_keys_nodup (df.cols.indexOf "hawb")
      (dropAllNaRows df.rows) []).1
  · intro k
    exact dedupKeyGo_find? (df.cols.indexOf "hawb") k
      (dropAllNaRows df.rows) [] (List.not_mem_nil k)
  · have h2 : "hawb" ∈ df.cols := by simpa using h
    simp [processDataframe, h2, dedupByKey]

/-- **C10, witness.** The deduplicated rows of the counterexample
dataset have pairwise-distinct raw keys (`"A "` vs `"A"`). -/
theorem c10_dedup_on_raw_keys_before_value_cleaning_witness :
    (dupKeyDf.cols.contains "hawb" = true) ∧
    (keyCells (dupKeyDf.cols.indexOf "hawb")
      (dedupByKey (dupKeyDf.cols.indexOf "hawb")
        (dropAllNaRows dupKeyDf.rows))).Nodup ∧
    (processDataframe dupKeyDf "g.xlsx" 3).rows.length =
      (dedupByKey (dupKeyDf.cols.indexOf "hawb")
        (dropAllNaRows dupKeyDf.rows)).length := by
  refine ⟨rfl,
    (c10_dedup_on_raw_keys_before_value_cleaning dupKeyDf "g.xlsx" 3 rfl).2.1, ?_⟩
  rw [(c10_dedup_on_raw_keys_before_value_cleaning dupKeyDf "g.xlsx" 3 rfl).2.2.2]
  decide

end UploadTool
